import Mathlib

/-!
Shallow embedding of the render-farm orchestration core of `renderFarm.py`
(Modal VFX Render Farm Blender add-on): placeholder substitution, output-graph
redirect/restore, per-frame render units, result reconciliation, the asset
tracker and the submit operator's control flow, together with proofs and
refutations of the spec's testable properties.
-/

namespace RenderFarm

/-! ## Decimal formatting: Python `f"{frame:04d}"` -/

/-- Decimal digits of `n`, most significant first, by repeated division;
the first argument is structural fuel (`fuel ≥ n` suffices). -/
def decDigitsAux : Nat → Nat → List Char
  | _, 0 => []
  | 0, _ + 1 => []
  | fuel + 1, n + 1 =>
    decDigitsAux fuel ((n + 1) / 10) ++ [Char.ofNat (48 + (n + 1) % 10)]

/-- Decimal representation of a natural number (`str(n)` in Python). -/
def decRepr (n : Nat) : String :=
  if n = 0 then "0" else String.mk (decDigitsAux n n)

/-- Python format spec `04d`: the decimal representation zero-padded on the
left to a minimum width of 4, as in `f"{frame:04d}"` (renderFarm.py line 445). -/
def padFrame (f : Nat) : String :=
  String.mk (List.replicate (4 - (decRepr f).data.length) '0' ++ (decRepr f).data)

/-! ## Placeholder substitution: `slot_info['path'].replace('#', f"{frame:04d}")` -/

/-- Python `str.replace` with a single-character pattern: every occurrence of
the character is replaced independently. -/
def replaceChar (c : Char) (r : List Char) : List Char → List Char
  | [] => []
  | x :: xs => if x = c then r ++ replaceChar c r xs else x :: replaceChar c r xs

/-- The substitution performed at renderFarm.py line 445:
`slot_info['path'].replace('#', f"{frame:04d}")`. -/
def pySubst (path : String) (frame : Nat) : String :=
  String.mk (replaceChar '#' (padFrame frame).data path.data)

/-! ## POSIX path helpers (`os.path` on the macOS/Linux hosts the code targets) -/

/-- `os.path.basename`: the part of the path after the last `/`. -/
def basename (p : String) : String :=
  String.mk ((p.data.reverse.takeWhile (fun c => c ≠ '/')).reverse)

/-- `os.path.join(a, b)` for two components (POSIX rules): an absolute `b`
discards `a`; otherwise a separator is inserted unless `a` is empty or
already ends in `/`. -/
def joinPath (a b : String) : String :=
  if b.data.head? = some '/' then b
  else if a.data = [] then a ++ b
  else if a.data.getLast? = some '/' then a ++ b
  else a ++ "/" ++ b

/-! ## Output-graph data model (compositor File Output nodes) -/

/-- Per-slot image format settings, as captured at renderFarm.py lines 179-184:
`file_format` always exists; the other attributes are read with
`getattr(slot.format, ..., None)`, hence optional. -/
structure SlotFormat where
  file_format : String
  color_depth : Option String
  exr_codec : Option String
  color_mode : Option String
deriving DecidableEq, Repr

/-- A file slot of a File Output node: `slot.path` and `slot.format`. -/
structure FileSlot where
  path : String
  format : SlotFormat
deriving DecidableEq, Repr

/-- A compositor File Output node: `node.base_path` and `node.file_slots`. -/
structure OutputNode where
  base_path : String
  file_slots : List FileSlot
deriving DecidableEq, Repr

/-- One slot's entry in `original_paths[...]['file_slots']` (lines 177-185). -/
structure SlotSnapshot where
  path : String
  format : SlotFormat
deriving DecidableEq, Repr

/-- One node's entry in the `original_paths` dict (lines 170-185): the keys of
the dict are the contiguous node indices `0..n-1` produced by `enumerate`, so
the dict is modelled as a list indexed by position. -/
structure NodeSnapshot where
  base_path : String
  file_slots : List SlotSnapshot
deriving DecidableEq, Repr

/-! ## Redirect and restore (render_frame, lines 164-207) -/

/-- Record one slot's original settings (lines 177-185). -/
def captureSlot (slot : FileSlot) : SlotSnapshot :=
  { path := slot.path, format := slot.format }

/-- Record one node's original base path and slot settings (lines 170-185). -/
def captureNode (node : OutputNode) : NodeSnapshot :=
  { base_path := node.base_path, file_slots := node.file_slots.map captureSlot }

/-- Lines 169-188: for each output node, record its original base path and
slot settings in `original_paths`, then set `node.base_path` to the temp
directory.  Returns the snapshot and the mutated graph. -/
def redirect (graph : List OutputNode) (temp_output_dir : String) :
    List NodeSnapshot × List OutputNode :=
  (graph.map captureNode,
   graph.map (fun node => { node with base_path := temp_output_dir }))

/-- Lines 205-207: write each slot's recorded path back while
`slot_index < len(original_paths[node_index]['file_slots'])`; slots beyond the
recorded list are left unchanged.  Formats are not written back. -/
def restoreSlots : List FileSlot → List SlotSnapshot → List FileSlot
  | [], _ => []
  | s :: rest, [] => s :: rest
  | s :: rest, snap :: srest => { s with path := snap.path } :: restoreSlots rest srest

/-- Lines 204-207: write back one node's base path and slot paths. -/
def restoreNode (node : OutputNode) (snap : NodeSnapshot) : OutputNode :=
  { node with base_path := snap.base_path,
              file_slots := restoreSlots node.file_slots snap.file_slots }

/-- Lines 202-207: for each node with `node_index in original_paths`, restore
its base path and slot paths; `enumerate` keys are contiguous, so a node
beyond the snapshot's length is left unchanged. -/
def restore : List OutputNode → List NodeSnapshot → List OutputNode
  | [], _ => []
  | n :: rest, [] => n :: rest
  | n :: rest, snap :: srest => restoreNode n snap :: restore rest srest

/-- The result dict returned by `render_frame` (lines 210-214): the frame, the
walked `rendered_files` mapping (relative path, temp absolute path), and the
`original_paths` snapshot. -/
structure FrameResult where
  frame : Nat
  files : List (String × String)
  original_paths : List NodeSnapshot
deriving DecidableEq, Repr

/-- `render_frame` (lines 144-214), with the actual Blender render and the
directory walk abstracted into `render`, which maps the redirected graph to
either the walked file mapping or a raised exception.  The function returns
the outcome together with the final state of the output graph.  The restore
loop (lines 201-207) textually follows the render call with no try/finally,
so a raised render exception propagates before restore runs, leaving the
graph redirected. -/
def render_frame (render : List OutputNode → Except String (List (String × String)))
    (graph : List OutputNode) (frame_number : Nat) :
    Except String FrameResult × List OutputNode :=
  let original_paths := (redirect graph "/renders/temp").1
  let redirected := (redirect graph "/renders/temp").2
  match render redirected with
  | Except.error e => (Except.error e, redirected)
  | Except.ok files =>
      (Except.ok { frame := frame_number, files := files, original_paths := original_paths },
       restore redirected original_paths)

/-! ## Reconciliation (`_process_rendered_files`, lines 425-478) -/

/-- Inner loop over one node's `file_slots` (lines 443-453): the first slot
whose substituted path has the same basename as `rel_path` sets
`original_path` to `os.path.join(base_path, slot_path)` and breaks. -/
def firstSlotMatch (base_path : String) (slots : List SlotSnapshot)
    (frame : Nat) (rel_path : String) : Option String :=
  match slots with
  | [] => Option.none
  | slot :: rest =>
    let slot_path := pySubst slot.path frame
    let potential_path := joinPath base_path slot_path
    if basename rel_path = basename slot_path then some potential_path
    else firstSlotMatch base_path rest frame rel_path

/-- Outer loop over node snapshots (lines 440-456).  The outer loop's exit
test `if original_path: break` uses Python truthiness, so an empty-string
match does not stop the scan: a later node's match (even an empty one)
overwrites it, and if no later node matches the empty string survives. -/
def scanNodes (snap : List NodeSnapshot) (frame : Nat) (rel_path : String) :
    Option String :=
  match snap with
  | [] => Option.none
  | node :: rest =>
    match firstSlotMatch node.base_path node.file_slots frame rel_path with
    | some p =>
      if p = "" then
        match scanNodes rest frame rel_path with
        | some q => some q
        | Option.none => some p
      else some p
    | Option.none => scanNodes rest frame rel_path

/-- Fallback resolution (lines 459-466): with at least one node snapshot
(`original_paths and 0 in original_paths`; `enumerate` keys are contiguous,
so nonemptiness suffices) join the first node's base path with the raw
relative path, else join the fallback directory
`os.path.join(bpy.path.abspath("//"), "modal_render_output")` — the blend
file's own directory — with the raw relative path. -/
def fallbackResolve (original_paths : List NodeSnapshot)
    (rel_path blendDir : String) : String :=
  match original_paths with
  | node0 :: _ => joinPath node0.base_path rel_path
  | [] => joinPath (joinPath blendDir "modal_render_output") rel_path

/-- Resolution of one produced file's final path (lines 436-466).  The final
guard `if not original_path` is Python truthiness again: both `None` and the
empty string fall back. -/
def resolveOutputPath (original_paths : List NodeSnapshot) (frame : Nat)
    (rel_path blendDir : String) : String :=
  match scanNodes original_paths frame rel_path with
  | some p => if p = "" then fallbackResolve original_paths rel_path blendDir else p
  | Option.none => fallbackResolve original_paths rel_path blendDir

/-! ## AssetTracker (lines 58-92) -/

/-- One row of the `assets` table `(path TEXT PRIMARY KEY, hash TEXT,
last_modified REAL)`; the stored time is opaque to the tracker's logic, so
its type is a parameter. -/
structure AssetRow (τ : Type) where
  path : String
  hash : String
  last_modified : τ

/-- `update_asset` (lines 84-89): `INSERT OR REPLACE` keyed on the `path`
primary key — the conflicting row, if any, is deleted and the new row
inserted. -/
def update_asset {τ : Type} (db : List (AssetRow τ)) (path fileHash : String)
    (modified_time : τ) : List (AssetRow τ) :=
  db.filter (fun r => decide (r.path ≠ path)) ++ [⟨path, fileHash, modified_time⟩]

/-- `get_asset_hash` (lines 79-82): `SELECT hash FROM assets WHERE path = ?`,
`fetchone`, returning the hash or `None`.  The primary key makes the matching
row unique. -/
def get_asset_hash {τ : Type} (db : List (AssetRow τ)) (path : String) :
    Option String :=
  (db.find? (fun r => decide (r.path = path))).map (fun r => r.hash)

/-! ## Dropbox upload (lines 105-134) and the shadowed call site (line 478) -/

/-- `upload_to_dropbox` (lines 105-134): a missing or empty
`DROPBOX_API_TOKEN` prints a warning and returns `False`; otherwise the
upload is attempted and any exception is caught, printed, and turned into
`False`; success returns `True`. -/
def upload_to_dropbox_fn (env_token : Option String)
    (files_upload : Except String Unit) : Bool :=
  match env_token with
  | Option.none => false
  | some t =>
    if t = "" then false
    else match files_upload with
      | Except.ok _ => true
      | Except.error _ => false

/-- A Python runtime value, as far as the call at line 478 is concerned. -/
inductive PyVal where
  | pyNone
  | pyBool (b : Bool)
  | pyStr (s : String)
  | pyFunc (f : String → String → Bool)

/-- Python name resolution inside a function body: the local scope (here the
method's parameters) shadows the module's global scope. -/
def lookupName (locals globalsEnv : List (String × PyVal)) (n : String) : PyVal :=
  match locals.find? (fun p => decide (p.1 = n)) with
  | some lv => lv.2
  | Option.none =>
    match globalsEnv.find? (fun p => decide (p.1 = n)) with
    | some gv => gv.2
    | Option.none => PyVal.pyNone

/-- Python call semantics for a two-argument call: calling anything but a
function raises `TypeError`. -/
def pyCall2 : PyVal → String → String → Except String Bool
  | PyVal.pyFunc f, a, b => Except.ok (f a b)
  | PyVal.pyBool _, _, _ => Except.error "TypeError: bool object is not callable"
  | _, _, _ => Except.error "TypeError: object is not callable"

/-- The upload step at the end of the per-file loop of
`_process_rendered_files` (lines 476-478).  The name `upload_to_dropbox`
there resolves through the local scope, where it is bound to the boolean
keyword parameter `upload_to_dropbox` of the method — shadowing the
module-level function of the same name. -/
def uploadStep (upload_to_dropbox_param : Bool)
    (moduleUpload : String → String → Bool)
    (original_path dropbox_folder : String) : Except String Unit :=
  if upload_to_dropbox_param then
    let dropbox_path := joinPath dropbox_folder (basename original_path)
    let callee := lookupName
      [("upload_to_dropbox", PyVal.pyBool upload_to_dropbox_param),
       ("original_path", PyVal.pyStr original_path),
       ("dropbox_folder", PyVal.pyStr dropbox_folder)]
      [("upload_to_dropbox", PyVal.pyFunc moduleUpload)]
      "upload_to_dropbox"
    match pyCall2 callee original_path dropbox_path with
    | Except.ok _ => Except.ok ()
    | Except.error e => Except.error e
  else Except.ok ()

/-! ## The submit operator (`ModalVFXRenderFarmOperator.execute`, lines 339-423) -/

/-- Operator return statuses used by `execute`. -/
inductive OpStatus where
  | FINISHED
  | CANCELLED
deriving DecidableEq, Repr

/-- The operator's `render_type` enum property (lines 291-299). -/
inductive RenderType where
  | FRAME
  | ANIMATION
  | RANGE
deriving DecidableEq, Repr

/-- The ambient Blender state `execute` reads: the compositor File Output
nodes, `bpy.data.filepath`, and the scene's current/start/end frames. -/
structure SceneState where
  output_nodes : List OutputNode
  filepath : String
  frame_current : Nat
  frame_start : Nat
  frame_end : Nat
deriving DecidableEq, Repr

/-- Observable trace of one `execute` call: the returned status, whether the
blend file was saved into the submitter folder (line 366), whether
`prepare_blend_file.remote` was called (line 378), which frames were issued
as remote `render_frame` calls, which frames' results reached
`_process_rendered_files`, and the `self.report({'ERROR'}, ...)` messages. -/
structure ExecTrace where
  status : OpStatus
  saved : Bool
  prepared : Bool
  issued : List Nat
  processed : List Nat
  errors : List String
deriving DecidableEq, Repr

/-- Python `range(start, end + 1)` at line 403. -/
def frameRange (s e : Nat) : List Nat := List.range' s (e + 1 - s)

/-- `list(session.app.render_frame.map(args, ...))` at line 406: with Modal's
default `return_exceptions=False`, draining the result iterator re-raises the
first remote exception, so collection is a fail-fast traversal (the remote
calls themselves are all submitted). -/
def mapRemote (render : Nat → Except String FrameResult) :
    List Nat → Except String (List FrameResult)
  | [] => Except.ok []
  | f :: rest =>
    match render f with
    | Except.error e => Except.error e
    | Except.ok r =>
      match mapRemote render rest with
      | Except.error e => Except.error e
      | Except.ok rs => Except.ok (r :: rs)

/-- `ModalVFXRenderFarmOperator.execute` (lines 339-423), with the remote
calls abstracted: `prepare` is the outcome of `prepare_blend_file.remote`
and `render f` the outcome of the remote `render_frame` call for frame `f`.
Control flow: the File-Output-nodes check (341-344) and the saved-file check
(356-359) return `CANCELLED` before any save or remote call; then the blend
file is saved, prepared, and frames dispatched; any exception is caught at
line 419 and reported as a single batch error with `CANCELLED`. -/
def executeModel (rt : RenderType) (start_frame end_frame : Nat)
    (scene : SceneState) (prepare : Except String String)
    (render : Nat → Except String FrameResult) : ExecTrace :=
  if scene.output_nodes = [] then
    { status := OpStatus.CANCELLED, saved := false, prepared := false,
      issued := [], processed := [],
      errors := ["No File Output nodes found in the compositor. Please set up your output in the compositor first."] }
  else if scene.filepath = "" then
    { status := OpStatus.CANCELLED, saved := false, prepared := false,
      issued := [], processed := [],
      errors := ["Please save your file before rendering."] }
  else
    match prepare with
    | Except.error e =>
      { status := OpStatus.CANCELLED, saved := true, prepared := true,
        issued := [], processed := [],
        errors := ["Error rendering on Modal: " ++ e] }
    | Except.ok _ =>
      match rt with
      | RenderType.FRAME =>
        match render scene.frame_current with
        | Except.error e =>
          { status := OpStatus.CANCELLED, saved := true, prepared := true,
            issued := [scene.frame_current], processed := [],
            errors := ["Error rendering on Modal: " ++ e] }
        | Except.ok r =>
          { status := OpStatus.FINISHED, saved := true, prepared := true,
            issued := [scene.frame_current], processed := [r.frame],
            errors := [] }
      | rt' =>
        let s := match rt' with
          | RenderType.ANIMATION => scene.frame_start
          | _ => start_frame
        let e := match rt' with
          | RenderType.ANIMATION => scene.frame_end
          | _ => end_frame
        let frames := frameRange s e
        match mapRemote render frames with
        | Except.error err =>
          { status := OpStatus.CANCELLED, saved := true, prepared := true,
            issued := frames, processed := [],
            errors := ["Error rendering on Modal: " ++ err] }
        | Except.ok results =>
          { status := OpStatus.FINISHED, saved := true, prepared := true,
            issued := frames, processed := results.map (fun r => r.frame),
            errors := [] }

/-! ## Helper lemmas -/

theorem decDigitsAux_length_le (fuel : Nat) : ∀ n k, n ≤ fuel → n < 10 ^ k →
    (decDigitsAux fuel n).length ≤ k := by
  induction fuel with
  | zero =>
    intro n k hn _
    have hn0 : n = 0 := Nat.le_zero.mp hn
    subst hn0
    simp [decDigitsAux]
  | succ fuel ih =>
    intro n k hn hk
    match n with
    | 0 => simp [decDigitsAux]
    | Nat.succ m =>
      match k with
      | 0 => omega
      | Nat.succ k' =>
        have h1 : (m + 1) / 10 ≤ fuel := by
          have := Nat.div_lt_self (Nat.succ_pos m) (by norm_num : 1 < 10)
          omega
        have h2 : (m + 1) / 10 < 10 ^ k' := by
          rw [Nat.div_lt_iff_lt_mul (by norm_num : 0 < 10)]
          calc m + 1 < 10 ^ (k' + 1) := hk
            _ = 10 ^ k' * 10 := by rw [pow_succ]
        have h3 := ih ((m + 1) / 10) k' h1 h2
        simp only [decDigitsAux, List.length_append, List.length_singleton]
        omega

theorem padFrame_length (f : Nat) (h : f ≤ 9999) : (padFrame f).length = 4 := by
  have hL : (decRepr f).data.length ≤ 4 := by
    by_cases hf : f = 0
    · subst hf; decide
    · have hdata : (decRepr f).data = decDigitsAux f f := by
        simp [decRepr, hf]
      rw [hdata]
      exact decDigitsAux_length_le f f 4 (Nat.le_refl f) (by omega)
  show (List.replicate (4 - (decRepr f).data.length) '0' ++ (decRepr f).data).length = 4
  simp only [List.length_append, List.length_replicate]
  omega

theorem replaceChar_eq_flatMap (c : Char) (r : List Char) (l : List Char) :
    replaceChar c r l = l.flatMap (fun x => if x = c then r else [x]) := by
  induction l with
  | nil => rfl
  | cons x xs ih =>
    by_cases h : x = c <;> simp [replaceChar, h, ih]

/-! ## C1: placeholder substitution -/

/-- C1 (counterexample): the substitution of line 445 replaces each `#`
character separately, so template `main.####.exr` with frame 7 yields
`main.0007000700070007.exr`, not `main.0007.exr` as the claim states. -/
theorem placeholder_subst_counterexample :
    pySubst "main.####.exr" 7 = "main.0007000700070007.exr" ∧
    pySubst "main.####.exr" 7 ≠ "main.0007.exr" := by
  constructor
  · decide
  · decide

/-- C1 (amended): for every frame `f` in `[1, 9999]`, the padded frame string
is the 4-digit zero-padded decimal representation of `f`, and substitution
replaces every single `#` character of the template with it independently —
a run of k `#` characters becomes k concatenated copies, so only a run of
length 1 (e.g. `main.#.exr`) yields the template with the placeholder
replaced by the 4-digit frame number. -/
theorem placeholder_subst_per_char (f : Nat) (h1 : 1 ≤ f) (h2 : f ≤ 9999)
    (tmpl : String) :
    (padFrame f).length = 4 ∧
    (pySubst tmpl f).data
      = tmpl.data.flatMap (fun c => if c = '#' then (padFrame f).data else [c]) ∧
    pySubst "main.#.exr" f = "main." ++ (padFrame f ++ ".exr") := by
  refine ⟨padFrame_length f h2, ?_, ?_⟩
  · show (replaceChar '#' (padFrame f).data tmpl.data) = _
    exact replaceChar_eq_flatMap '#' (padFrame f).data tmpl.data
  · rfl

/-- C1 (witness): the amended statement evaluated at frame 7. -/
theorem placeholder_subst_per_char_witness :
    (padFrame 7).length = 4 ∧
    (pySubst "main.####.exr" 7).data
      = "main.####.exr".data.flatMap
          (fun c => if c = '#' then (padFrame 7).data else [c]) ∧
    pySubst "main.#.exr" 7 = "main." ++ (padFrame 7 ++ ".exr") :=
  placeholder_subst_per_char 7 (by decide) (by decide) "main.####.exr"

theorem append_data (a b : String) : (a ++ b).data = a.data ++ b.data := rfl

theorem append_ne_empty_right (a b : String) (hb : b.data ≠ []) : a ++ b ≠ "" := by
  intro hc
  apply hb
  have hdat : (a ++ b).data = [] := by rw [hc]
  rw [append_data] at hdat
  exact (List.append_eq_nil.mp hdat).2

theorem joinPath_ne_empty (a b : String) (hb : b.data ≠ []) : joinPath a b ≠ "" := by
  unfold joinPath
  split_ifs
  · intro hc
    apply hb
    rw [hc]
  · exact append_ne_empty_right a b hb
  · exact append_ne_empty_right a b hb
  · exact append_ne_empty_right (a ++ "/") b hb

theorem restoreSlots_capture (slots : List FileSlot) :
    restoreSlots slots (slots.map captureSlot) = slots := by
  induction slots with
  | nil => rfl
  | cons s rest ih => simp [restoreSlots, captureSlot, ih]

theorem restoreNode_capture (node : OutputNode) (S : String) :
    restoreNode { node with base_path := S } (captureNode node) = node := by
  simp [restoreNode, captureNode, restoreSlots_capture]

theorem restore_redirect (graph : List OutputNode) (S : String) :
    restore (redirect graph S).2 (redirect graph S).1 = graph := by
  induction graph with
  | nil => rfl
  | cons n rest ih =>
    show restoreNode { n with base_path := S } (captureNode n)
        :: restore (redirect rest S).2 (redirect rest S).1 = n :: rest
    rw [restoreNode_capture, ih]

/-! ## C4: redirect/restore round trip -/

/-- C4: for every output graph and scratch directory, redirecting and then
restoring from the captured snapshot leaves every node's base path and every
slot's path (indeed the whole graph) equal to its pre-redirect value. -/
theorem redirect_restore_roundtrip (graph : List OutputNode) (S : String) :
    restore (redirect graph S).2 (redirect graph S).1 = graph :=
  restore_redirect graph S

/-! ## C5: frame effect of redirect -/

/-- C5: `redirect` captures every node's base path and ordered slot paths in
the snapshot, and the mutated graph differs from the original only in that
every node's `base_path` is the scratch directory — slots (paths and
formats) are untouched. -/
theorem redirect_frame_effect (graph : List OutputNode) (S : String) (i : Nat) :
    ((redirect graph S).1.map (fun ns => ns.base_path)
        = graph.map (fun n => n.base_path)) ∧
    ((redirect graph S).1.map (fun ns => ns.file_slots.map (fun sl => sl.path))
        = graph.map (fun n => n.file_slots.map (fun sl => sl.path))) ∧
    ((redirect graph S).2[i]?
        = (graph[i]?).map (fun n => { n with base_path := S })) ∧
    ((redirect graph S).2.map (fun n => n.file_slots)
        = graph.map (fun n => n.file_slots)) := by
  refine ⟨?_, ?_, ?_, ?_⟩
  · show (graph.map captureNode).map _ = _
    rw [List.map_map]
    rfl
  · show (graph.map captureNode).map _ = _
    rw [List.map_map]
    apply List.map_congr_left
    intro n _
    show (n.file_slots.map captureSlot).map _ = _
    rw [List.map_map]
    rfl
  · exact List.getElem?_map (fun node : OutputNode => { node with base_path := S }) graph i
  · show (graph.map fun node => { node with base_path := S }).map _ = _
    rw [List.map_map]
    rfl

/-! ## C3: restore on exit paths of a render unit -/

/-- A representative EXR slot format. -/
def fmtEXR : SlotFormat :=
  { file_format := "OPEN_EXR_MULTILAYER", color_depth := some "16",
    exr_codec := some "ZIP", color_mode := some "RGBA" }

/-- A one-node output graph as a render unit sees it before redirection. -/
def demoGraph : List OutputNode :=
  [{ base_path := "/shots/010/comp",
     file_slots := [{ path := "main.####.exr", format := fmtEXR }] }]

/-- C3 (counterexample): the restore loop of `render_frame` (lines 201-207)
textually follows the render call with no try/finally, so when the render
step raises, the graph is left pointing at the scratch directory instead of
being written back from the snapshot. -/
theorem restore_on_failure_counterexample :
    (render_frame (fun _ => Except.error "render crashed") demoGraph 3).2 ≠ demoGraph ∧
    (render_frame (fun _ => Except.error "render crashed") demoGraph 3).2.map
        (fun n => n.base_path) = ["/renders/temp"] := by
  constructor
  · decide
  · decide

/-- C3 (amended): restore runs only on the success path of a render unit:
when the render step succeeds, every node's base path and every slot's path
is written back from the snapshot (the final graph equals the original), but
when the render step between capture and restore fails, the exception
propagates before the restore loop and the graph is left redirected. -/
theorem restore_success_path_only
    (render : List OutputNode → Except String (List (String × String)))
    (graph : List OutputNode) (f : Nat) :
    (∀ files, render (redirect graph "/renders/temp").2 = Except.ok files →
        (render_frame render graph f).2 = graph) ∧
    (∀ e, render (redirect graph "/renders/temp").2 = Except.error e →
        (render_frame render graph f).2 = (redirect graph "/renders/temp").2) := by
  constructor
  · intro files hok
    show (match render (redirect graph "/renders/temp").2 with
      | Except.error e => (Except.error e, (redirect graph "/renders/temp").2)
      | Except.ok files =>
          (Except.ok ({ frame := f, files := files,
                        original_paths := (redirect graph "/renders/temp").1 } : FrameResult),
           restore (redirect graph "/renders/temp").2 (redirect graph "/renders/temp").1)).2
        = graph
    rw [hok]
    exact restore_redirect graph "/renders/temp"
  · intro e herr
    show (match render (redirect graph "/renders/temp").2 with
      | Except.error e => (Except.error e, (redirect graph "/renders/temp").2)
      | Except.ok files =>
          (Except.ok ({ frame := f, files := files,
                        original_paths := (redirect graph "/renders/temp").1 } : FrameResult),
           restore (redirect graph "/renders/temp").2 (redirect graph "/renders/temp").1)).2
        = (redirect graph "/renders/temp").2
    rw [herr]

/-- C3 (witness): the amended statement evaluated on a concrete graph and a
succeeding render step. -/
theorem restore_success_path_only_witness :
    (render_frame (fun _ => Except.ok []) demoGraph 3).2 = demoGraph :=
  (restore_success_path_only (fun _ => Except.ok []) demoGraph 3).1 [] rfl

/-! ## C6: reconciliation first-match resolution -/

/-- The snapshot of the spec's worked example: `main` (`rgba` →
`main.####.exr`) and `data` (`normal` → `data.####.exr`). -/
def exampleSnapHash : List NodeSnapshot :=
  [{ base_path := "/out/main",
     file_slots := [{ path := "main.####.exr", format := fmtEXR }] },
   { base_path := "/out/data",
     file_slots := [{ path := "data.####.exr", format := fmtEXR }] }]

/-- C6 (counterexample): with the spec's own `####` templates, substitution
produces `data.0003000300030003.exr`, whose basename never equals
`data.0003.exr`, so the produced file `data.0003.exr` matches no slot and
falls back to the *first* node's base path: it resolves to
`/out/main/data.0003.exr`, not `<data.base_path>/data.0003.exr`. -/
theorem reconcile_example_counterexample :
    resolveOutputPath exampleSnapHash 3 "data.0003.exr" "/job"
      = "/out/main/data.0003.exr" ∧
    resolveOutputPath exampleSnapHash 3 "data.0003.exr" "/job"
      ≠ "/out/data/data.0003.exr" := by
  constructor
  · decide
  · decide

/-- C6 (amended): reconciliation iterates nodes then slots in original order
and the first pair whose substituted slot path has the produced file's
basename wins, resolving to `join(node.base_path, substituted_slot_path)`;
the worked example holds once the templates carry a single-`#` placeholder
(`main.#.exr`, `data.#.exr`), for which substitution yields `main.0003.exr`
and `data.0003.exr`: the produced files then resolve to
`<main.base_path>/main.0003.exr` and `<data.base_path>/data.0003.exr`. -/
theorem reconcile_first_match (mainBase dataBase : String) (fmt1 fmt2 : SlotFormat) :
    resolveOutputPath
        [{ base_path := mainBase, file_slots := [{ path := "main.#.exr", format := fmt1 }] },
         { base_path := dataBase, file_slots := [{ path := "data.#.exr", format := fmt2 }] }]
        3 "main.0003.exr" "/job"
      = joinPath mainBase "main.0003.exr" ∧
    resolveOutputPath
        [{ base_path := mainBase, file_slots := [{ path := "main.#.exr", format := fmt1 }] },
         { base_path := dataBase, file_slots := [{ path := "data.#.exr", format := fmt2 }] }]
        3 "data.0003.exr" "/job"
      = joinPath dataBase "data.0003.exr" := by
  have hsub1 : pySubst "main.#.exr" 3 = "main.0003.exr" := by decide
  have hsub2 : pySubst "data.#.exr" 3 = "data.0003.exr" := by decide
  have hbm : basename "main.0003.exr" = basename "main.0003.exr" := rfl
  have hne1 : joinPath mainBase "main.0003.exr" ≠ "" :=
    joinPath_ne_empty mainBase "main.0003.exr" (by decide)
  have hne2 : joinPath dataBase "data.0003.exr" ≠ "" :=
    joinPath_ne_empty dataBase "data.0003.exr" (by decide)
  constructor
  · simp [resolveOutputPath, scanNodes, firstSlotMatch, hsub1, hsub2, hne1]
  · have hbne : ¬ (basename "data.0003.exr" = basename "main.0003.exr") := by decide
    simp [resolveOutputPath, scanNodes, firstSlotMatch, hsub1, hsub2, hbne, hne2]

/-! ## C7: fallback resolution for unmatched files -/

theorem firstSlotMatch_eq_none (base : String) (slots : List SlotSnapshot)
    (frame : Nat) (rel : String)
    (h : ∀ slot ∈ slots, basename rel ≠ basename (pySubst slot.path frame)) :
    firstSlotMatch base slots frame rel = Option.none := by
  induction slots with
  | nil => rfl
  | cons s rest ih =>
    have hs : ¬ basename rel = basename (pySubst s.path frame) := h s (by simp)
    simp only [firstSlotMatch, if_neg hs]
    exact ih (fun sl hsl => h sl (List.mem_cons_of_mem s hsl))

theorem scanNodes_eq_none (snap : List NodeSnapshot) (frame : Nat) (rel : String)
    (h : ∀ node ∈ snap, ∀ slot ∈ node.file_slots,
        basename rel ≠ basename (pySubst slot.path frame)) :
    scanNodes snap frame rel = Option.none := by
  induction snap with
  | nil => rfl
  | cons n rest ih =>
    have hn : firstSlotMatch n.base_path n.file_slots frame rel = Option.none :=
      firstSlotMatch_eq_none n.base_path n.file_slots frame rel (h n (by simp))
    simp only [scanNodes, hn]
    exact ih (fun nd hnd => h nd (List.mem_cons_of_mem n hnd))

/-- C7: a produced file whose basename matches no slot across all nodes of
the snapshot resolves to `join(first node's base path, relative path)` when
at least one node snapshot exists, and otherwise to
`join(join(blend file's directory, "modal_render_output"), relative path)`. -/
theorem fallback_resolution (snap : List NodeSnapshot) (frame : Nat)
    (rel blendDir : String)
    (h : ∀ node ∈ snap, ∀ slot ∈ node.file_slots,
        basename rel ≠ basename (pySubst slot.path frame)) :
    resolveOutputPath snap frame rel blendDir = fallbackResolve snap rel blendDir ∧
    (∀ n0 rest, snap = n0 :: rest →
        resolveOutputPath snap frame rel blendDir = joinPath n0.base_path rel) ∧
    (snap = [] →
        resolveOutputPath snap frame rel blendDir
          = joinPath (joinPath blendDir "modal_render_output") rel) := by
  have hscan : scanNodes snap frame rel = Option.none := scanNodes_eq_none snap frame rel h
  have hres : resolveOutputPath snap frame rel blendDir = fallbackResolve snap rel blendDir := by
    simp only [resolveOutputPath, hscan]
  refine ⟨hres, ?_, ?_⟩
  · intro n0 rest hsnap
    rw [hres, hsnap]
    rfl
  · intro hsnap
    rw [hres, hsnap]
    rfl

/-- C7 (witness): the fallback evaluated on a concrete snapshot and an
unmatched produced file. -/
theorem fallback_resolution_witness :
    resolveOutputPath exampleSnapHash 3 "unexpected.png" "/job"
        = fallbackResolve exampleSnapHash "unexpected.png" "/job" ∧
    (∀ n0 rest, exampleSnapHash = n0 :: rest →
        resolveOutputPath exampleSnapHash 3 "unexpected.png" "/job"
          = joinPath n0.base_path "unexpected.png") ∧
    (exampleSnapHash = [] →
        resolveOutputPath exampleSnapHash 3 "unexpected.png" "/job"
          = joinPath (joinPath "/job" "modal_render_output") "unexpected.png") :=
  fallback_resolution exampleSnapHash 3 "unexpected.png" "/job" (by decide)

/-! ## C8: AssetTracker upsert semantics -/

theorem find?_append_singleton {τ : Type} (l : List (AssetRow τ)) (p : String)
    (row : AssetRow τ) (hl : ∀ r ∈ l, r.path ≠ p) (hrow : row.path = p) :
    (l ++ [row]).find? (fun r => decide (r.path = p)) = some row := by
  induction l with
  | nil => simp [List.find?, hrow]
  | cons x xs ih =>
    have hx : x.path ≠ p := hl x (by simp)
    simp only [List.cons_append, List.find?]
    rw [decide_eq_false hx]
    exact ih (fun r hr => hl r (List.mem_cons_of_mem x hr))

theorem mem_filter_path_ne {τ : Type} (db : List (AssetRow τ)) (p : String) :
    ∀ r ∈ db.filter (fun r => decide (r.path ≠ p)), r.path ≠ p := by
  intro r hr
  have := List.of_mem_filter hr
  simpa using this

/-- C8: recording a path twice replaces the stored row — `record(p,h1,t1)`
then `record(p,h2,t2)` leaves `lookup(p) = h2`, for any prior database
contents and any stored times. -/
theorem tracker_upsert_overwrites {τ : Type} (db : List (AssetRow τ))
    (p h1 h2 : String) (t1 t2 : τ) :
    get_asset_hash (update_asset (update_asset db p h1 t1) p h2 t2) p = some h2 := by
  have h := find?_append_singleton
    ((update_asset db p h1 t1).filter (fun r => decide (r.path ≠ p))) p
    ⟨p, h2, t2⟩ (mem_filter_path_ne (update_asset db p h1 t1) p) rfl
  show Option.map (fun r : AssetRow τ => r.hash)
      (((update_asset db p h1 t1).filter (fun r : AssetRow τ => decide (r.path ≠ p))
          ++ [({ path := p, hash := h2, last_modified := t2 } : AssetRow τ)]).find?
        (fun r : AssetRow τ => decide (r.path = p)))
    = some h2
  rw [h]
  rfl

/-! ## C9: the upload step and the shadowed call site -/

/-- C9: the module-level upload function itself degrades to `False` when the
credential is absent (or any upload error occurs), but the call site at line
478 never reaches it: inside `_process_rendered_files` the name
`upload_to_dropbox` resolves to the method's boolean keyword parameter of
the same name, and calling a bool raises TypeError, aborting the per-file
loop instead of degrading to a warning. -/
theorem upload_call_shadowed (moduleUpload : String → String → Bool)
    (original_path dropbox_folder : String) :
    uploadStep true moduleUpload original_path dropbox_folder
      = Except.error "TypeError: bool object is not callable" ∧
    upload_to_dropbox_fn Option.none (Except.ok ()) = false ∧
    (∀ err, upload_to_dropbox_fn (some "token") (Except.error err) = false) := by
  refine ⟨rfl, rfl, fun err => rfl⟩

/-! ## C10: precondition checks before any remote work -/

/-- C10: if the job has no File Output nodes or the scene has never been
saved, `execute` cancels with an error report before saving the blend file,
before the remote prepare call and before any remote render call. -/
theorem precondition_cancel (rt : RenderType) (sf ef : Nat) (scene : SceneState)
    (prepare : Except String String) (render : Nat → Except String FrameResult)
    (h : scene.output_nodes = [] ∨ scene.filepath = "") :
    (executeModel rt sf ef scene prepare render).status = OpStatus.CANCELLED ∧
    (executeModel rt sf ef scene prepare render).saved = false ∧
    (executeModel rt sf ef scene prepare render).prepared = false ∧
    (executeModel rt sf ef scene prepare render).issued = [] ∧
    (executeModel rt sf ef scene prepare render).errors ≠ [] := by
  rcases h with h | h
  · simp [executeModel, h]
  · by_cases hn : scene.output_nodes = [] <;> simp [executeModel, hn, h]

/-- C10 (witness): a scene with no File Output nodes. -/
theorem precondition_cancel_witness :
    (executeModel RenderType.RANGE 1 2
        { output_nodes := [], filepath := "/work/shot.blend",
          frame_current := 1, frame_start := 1, frame_end := 250 }
        (Except.ok "/assets/x.blend")
        (fun f => Except.ok { frame := f, files := [], original_paths := [] })).status
      = OpStatus.CANCELLED ∧
    (executeModel RenderType.RANGE 1 2
        { output_nodes := [], filepath := "/work/shot.blend",
          frame_current := 1, frame_start := 1, frame_end := 250 }
        (Except.ok "/assets/x.blend")
        (fun f => Except.ok { frame := f, files := [], original_paths := [] })).saved = false ∧
    (executeModel RenderType.RANGE 1 2
        { output_nodes := [], filepath := "/work/shot.blend",
          frame_current := 1, frame_start := 1, frame_end := 250 }
        (Except.ok "/assets/x.blend")
        (fun f => Except.ok { frame := f, files := [], original_paths := [] })).prepared = false ∧
    (executeModel RenderType.RANGE 1 2
        { output_nodes := [], filepath := "/work/shot.blend",
          frame_current := 1, frame_start := 1, frame_end := 250 }
        (Except.ok "/assets/x.blend")
        (fun f => Except.ok { frame := f, files := [], original_paths := [] })).issued = [] ∧
    (executeModel RenderType.RANGE 1 2
        { output_nodes := [], filepath := "/work/shot.blend",
          frame_current := 1, frame_start := 1, frame_end := 250 }
        (Except.ok "/assets/x.blend")
        (fun f => Except.ok { frame := f, files := [], original_paths := [] })).errors ≠ [] :=
  precondition_cancel RenderType.RANGE 1 2
    { output_nodes := [], filepath := "/work/shot.blend",
      frame_current := 1, frame_start := 1, frame_end := 250 }
    (Except.ok "/assets/x.blend")
    (fun f => Except.ok { frame := f, files := [], original_paths := [] })
    (Or.inl rfl)

/-! ## C2: range dispatch and the partial-failure policy -/

theorem mem_frameRange (s e f : Nat) (hse : s ≤ e) :
    f ∈ frameRange s e ↔ s ≤ f ∧ f ≤ e := by
  unfold frameRange
  rw [List.mem_range'_1]
  omega

theorem mapRemote_ok_of_all (render : Nat → Except String FrameResult) :
    ∀ l : List Nat, (∀ f ∈ l, ∃ r, render f = Except.ok r) →
    ∃ rs, mapRemote render l = Except.ok rs ∧ rs.length = l.length := by
  intro l
  induction l with
  | nil => intro _; exact ⟨[], rfl, rfl⟩
  | cons f rest ih =>
    intro h
    obtain ⟨r, hr⟩ := h f (by simp)
    obtain ⟨rs, hrs, hlen⟩ := ih (fun g hg => h g (List.mem_cons_of_mem f hg))
    refine ⟨r :: rs, ?_, by simp [hlen]⟩
    simp [mapRemote, hr, hrs]

theorem mapRemote_error_of_mem (render : Nat → Except String FrameResult)
    (f : Nat) (msg : String) :
    ∀ l : List Nat, f ∈ l → render f = Except.error msg →
    ∃ err, mapRemote render l = Except.error err := by
  intro l
  induction l with
  | nil => intro h _; cases h
  | cons x rest ih =>
    intro hmem hrf
    rcases List.mem_cons.mp hmem with hx | hx
    · subst hx
      exact ⟨msg, by simp [mapRemote, hrf]⟩
    · match hrx : render x with
      | Except.error e => exact ⟨e, by simp [mapRemote, hrx]⟩
      | Except.ok r =>
        obtain ⟨err, herr⟩ := ih hx hrf
        exact ⟨err, by simp [mapRemote, hrx, herr]⟩

theorem executeModel_range_eq (render : Nat → Except String FrameResult)
    (s e : Nat) (scene : SceneState) (volumePath : String)
    (hnodes : ¬ scene.output_nodes = []) (hfile : ¬ scene.filepath = "") :
    executeModel RenderType.RANGE s e scene (Except.ok volumePath) render
      = match mapRemote render (frameRange s e) with
        | Except.error err =>
          { status := OpStatus.CANCELLED, saved := true, prepared := true,
            issued := frameRange s e, processed := [],
            errors := ["Error rendering on Modal: " ++ err] }
        | Except.ok results =>
          { status := OpStatus.FINISHED, saved := true, prepared := true,
            issued := frameRange s e, processed := results.map (fun r => r.frame),
            errors := [] } := by
  unfold executeModel
  rw [if_neg hnodes, if_neg hfile]

/-- C2 (amended): dispatching Range(s, e) issues remote render calls for
exactly the frames s..e inclusive; when every frame's remote call succeeds,
one FrameResult per frame is processed and the operator finishes; but a
single frame's remote failure is not captured per-frame: the exception is
caught at the batch boundary, the operator reports one batch error, returns
CANCELLED, and processes no sibling results. -/
theorem dispatch_range (render : Nat → Except String FrameResult)
    (s e : Nat) (scene : SceneState) (volumePath : String)
    (hse : s ≤ e) (hnodes : ¬ scene.output_nodes = [])
    (hfile : ¬ scene.filepath = "") :
    ((executeModel RenderType.RANGE s e scene (Except.ok volumePath) render).issued
        = frameRange s e ∧
      (∀ f, f ∈ frameRange s e ↔ s ≤ f ∧ f ≤ e)) ∧
    ((∀ f ∈ frameRange s e, ∃ r, render f = Except.ok r) →
      (executeModel RenderType.RANGE s e scene (Except.ok volumePath) render).status
          = OpStatus.FINISHED ∧
      (executeModel RenderType.RANGE s e scene (Except.ok volumePath) render).processed.length
          = e + 1 - s) ∧
    (∀ f msg, f ∈ frameRange s e → render f = Except.error msg →
      (executeModel RenderType.RANGE s e scene (Except.ok volumePath) render).status
          = OpStatus.CANCELLED ∧
      (executeModel RenderType.RANGE s e scene (Except.ok volumePath) render).processed = [] ∧
      (executeModel RenderType.RANGE s e scene (Except.ok volumePath) render).errors.length
          = 1) := by
  rw [executeModel_range_eq render s e scene volumePath hnodes hfile]
  refine ⟨⟨?_, fun f => mem_frameRange s e f hse⟩, ?_, ?_⟩
  · match hmap : mapRemote render (frameRange s e) with
    | Except.error err => rfl
    | Except.ok results => rfl
  · intro hall
    obtain ⟨rs, hrs, hlen⟩ := mapRemote_ok_of_all render (frameRange s e) hall
    rw [hrs]
    refine ⟨rfl, ?_⟩
    show (rs.map (fun r => r.frame)).length = e + 1 - s
    rw [List.length_map, hlen]
    simp [frameRange]
  · intro f msg hf hrf
    obtain ⟨err, herr⟩ := mapRemote_error_of_mem render f msg (frameRange s e) hf hrf
    rw [herr]
    exact ⟨rfl, rfl, rfl⟩

/-- A remote render that fails exactly on frame 12. -/
def render12fails : Nat → Except String FrameResult :=
  fun f => if f = 12 then Except.error "remote failure"
           else Except.ok { frame := f, files := [], original_paths := [] }

/-- A remote render that succeeds on every frame. -/
def renderAllOk : Nat → Except String FrameResult :=
  fun f => Except.ok { frame := f, files := [], original_paths := [] }

/-- A minimal valid scene for the operator model. -/
def sceneDemo : SceneState :=
  { output_nodes := [{ base_path := "/out", file_slots := [] }],
    filepath := "/work/shot.blend", frame_current := 1,
    frame_start := 1, frame_end := 250 }

/-- C2 (counterexample): for Range(10,14) with frame 12's remote call
failing, the batch does not return 5 FrameResults with a recorded per-frame
failure: the operator returns CANCELLED and processes no results at all. -/
theorem dispatch_range_counterexample :
    (executeModel RenderType.RANGE 10 14 sceneDemo
        (Except.ok "/assets/x.blend") render12fails).status = OpStatus.CANCELLED ∧
    (executeModel RenderType.RANGE 10 14 sceneDemo
        (Except.ok "/assets/x.blend") render12fails).processed = [] ∧
    (executeModel RenderType.RANGE 10 14 sceneDemo
        (Except.ok "/assets/x.blend") render12fails).processed.length ≠ 5 := by
  refine ⟨?_, ?_, ?_⟩ <;> decide

/-- C2 (witness): the amended statement evaluated on Range(10,14) with an
all-succeeding remote render. -/
theorem dispatch_range_witness :
    ((executeModel RenderType.RANGE 10 14 sceneDemo
          (Except.ok "/assets/x.blend") renderAllOk).issued = frameRange 10 14 ∧
      (∀ f, f ∈ frameRange 10 14 ↔ 10 ≤ f ∧ f ≤ 14)) ∧
    ((∀ f ∈ frameRange 10 14, ∃ r, renderAllOk f = Except.ok r) →
      (executeModel RenderType.RANGE 10 14 sceneDemo
          (Except.ok "/assets/x.blend") renderAllOk).status = OpStatus.FINISHED ∧
      (executeModel RenderType.RANGE 10 14 sceneDemo
          (Except.ok "/assets/x.blend") renderAllOk).processed.length = 14 + 1 - 10) ∧
    (∀ f msg, f ∈ frameRange 10 14 → renderAllOk f = Except.error msg →
      (executeModel RenderType.RANGE 10 14 sceneDemo
          (Except.ok "/assets/x.blend") renderAllOk).status = OpStatus.CANCELLED ∧
      (executeModel RenderType.RANGE 10 14 sceneDemo
          (Except.ok "/assets/x.blend") renderAllOk).processed = [] ∧
      (executeModel RenderType.RANGE 10 14 sceneDemo
          (Except.ok "/assets/x.blend") renderAllOk).errors.length = 1) :=
  dispatch_range renderAllOk 10 14 sceneDemo "/assets/x.blend"
    (by decide) (by decide) (by decide)

end RenderFarm
